import Mathlib

/-!
Verification development for the line-tracking core of the obsidian-local-history
plugin: a shallow embedding of `TrackerLine` (src/lines/tracker.line.ts),
`ChangeLine` (src/lines/change.line.ts), `FileSnapshot` (the snapshot /
tracker-collection class) and the incremental change applier
(src/extensions/change-detector.extension.ts), together with theorems about
line classification, position shifting, restore/remove round trips and the
derived change map.

Modelling conventions:
* JavaScript numbers used as line indices are modelled as `Int`; the sentinel
  `-1` ("none") is kept literally.
* `null`/`undefined`-able values are modelled as `Option`.
* In-place mutation of a `TrackerLine` object held in the snapshot's `tracker`
  array is modelled by rebuilding the list, locating the object by its `id`
  (the source gives every tracker a unique random string id; we model ids as
  `Nat` and carry uniqueness as a hypothesis where it matters).
* `Date.now()` timestamps are supplied explicitly as `now : Int` arguments.
-/

/-- Wrap an integer to the signed 32-bit range, the effect of JavaScript's
`| 0` and of the implicit `ToInt32` performed by the `<<` operator. -/
def wrap32 (n : Int) : Int := (n + 2 ^ 31) % 2 ^ 32 - 2 ^ 31

/-- One step of `TextHelper.hash`: `hash = ((hash << 5) - hash) + charCode; hash |= 0`.
The `<<` wraps its result to 32 bits before the subtraction, and `|= 0` wraps
the final sum. -/
def thashStep (h : Int) (c : Char) : Int := wrap32 (wrap32 (h * 32) - h + (c.toNat : Int))

/-- Fold of `thashStep` over the characters of the string. -/
def thashAux : List Char → Int → Int
  | [], h => h
  | c :: cs, h => thashAux cs (thashStep h c)

/-- `TextHelper.hash` (src/helpers/text.helper.ts): the 32-bit rolling hash of the
content, returned as `Math.abs(hash).toString()`. Since the decimal string of a
natural number determines the number, we model the result as the absolute value
itself; string equality of hashes coincides with equality of these integers. -/
def thash (s : String) : Int := (thashAux s.data 0).natAbs

/-- Is `pat` a prefix of `l`? Used to model `String.prototype.split`. -/
def matchesAt : List Char → List Char → Bool
  | [], _ => true
  | _ :: _, [] => false
  | a :: as, b :: bs => a == b && matchesAt as bs

/-- Fuel-driven worker for `jsSplit`; the fuel is the length of the input, which
is enough because every step consumes at least one character. -/
def jsSplitAux (sep : List Char) : Nat → List Char → List Char → List (List Char)
  | _, [], acc => [acc.reverse]
  | 0, l, acc => [acc.reverse ++ l]
  | fuel + 1, c :: rest, acc =>
    if sep.length != 0 && matchesAt sep (c :: rest) then
      acc.reverse :: jsSplitAux sep fuel (List.drop (sep.length - 1) rest) []
    else
      jsSplitAux sep fuel rest (c :: acc)

/-- JavaScript `content.split(separator)` for a non-empty string separator
(the snapshot's line break is always a concrete non-empty string such as
`"\n"`): splits at every occurrence of the separator, keeping empty pieces. -/
def jsSplit (s : String) (sep : String) : List String :=
  (jsSplitAux sep.data (s.data.length + 1) s.data []).map (fun cs => String.mk cs)

/-- `ChangeType` (src/consts.ts): the categories of tracked line changes. -/
inductive ChangeType
  | changed
  | restored
  | added
  | removed
deriving DecidableEq, Repr

/-- `ChangeLine` (src/lines/change.line.ts): one display line together with the
list of change tags recorded for it, in insertion order without duplicates. -/
structure ChangeLine where
  line : Int
  types : List ChangeType
deriving DecidableEq, Repr

/-- `ChangeLine.has` for a single change type. -/
def ChangeLine.hasType (cl : ChangeLine) (ty : ChangeType) : Bool :=
  cl.types.contains ty

/-- `ChangeLine.has` for an array argument: true when the line carries any of
the listed change types. -/
def ChangeLine.hasAny (cl : ChangeLine) (tys : List ChangeType) : Bool :=
  cl.types.any (fun item => tys.contains item)

/-- `ChangeLine.add`: append the tag unless it is already present. -/
def ChangeLine.add (cl : ChangeLine) (ty : ChangeType) : ChangeLine :=
  if cl.hasType ty then cl else { cl with types := cl.types ++ [ty] }

/-- `ChangeLine.getLine`. -/
def ChangeLine.getLine (cl : ChangeLine) : Int := cl.line

/-- `ChangeLine.getTypes` (returns a copy; copying is the identity here). -/
def ChangeLine.getTypes (cl : ChangeLine) : List ChangeType := cl.types

/-- `TrackerLine` (src/lines/tracker.line.ts): one tracked logical line.
Fields mirror the class properties; `hash`, `original` and `current` are
nullable in the source and therefore `Option` here. -/
structure TrackerLine where
  id : Nat
  originalPosition : Int
  currentPosition : Int
  removedAtPosition : Int
  changeAtPosition : Int
  contentSameOriginal : Bool
  hash : Option Int
  original : Option String
  current : Option String
  removedTimeStamp : Int
  changedTimeStamp : Int
  addedTimeStamp : Int
deriving DecidableEq, Repr

/-- Constructor parameters of `TrackerLine` (the `TrackerLineParams` type). -/
structure TrackerLineParams where
  content : Option String := none
  originalPosition : Option Int := none
  currentPosition : Option Int := none
  contentSameOriginal : Option Bool := none
deriving DecidableEq, Repr

/-- `wasExplicitlyRemoved`: the line has a recorded removal position. -/
def TrackerLine.wasExplicitlyRemoved (t : TrackerLine) : Bool :=
  t.removedAtPosition != -1

/-- `wasExplicitlyChanged`: the line has a recorded change position. -/
def TrackerLine.wasExplicitlyChanged (t : TrackerLine) : Bool :=
  t.changeAtPosition != -1

/-- `existedInOriginal`: the line existed in the original document. -/
def TrackerLine.existedInOriginal (t : TrackerLine) : Bool :=
  t.originalPosition != -1

/-- `existedInCurrent`: the line exists in the current document. -/
def TrackerLine.existedInCurrent (t : TrackerLine) : Bool :=
  t.currentPosition != -1

/-- `contentHashed`: the line has a content hash (`isString(hash) && !!hash`;
the stored hash string is never empty, so this is just presence). -/
def TrackerLine.contentHashed (t : TrackerLine) : Bool :=
  t.hash.isSome

/-- The `TrackerLine` constructor: applies the optional parameters in source
order. The random string id and `Date.now()` stamp are supplied explicitly. -/
def mkTrackerLine (params : TrackerLineParams) (id : Nat) (now : Int) : TrackerLine :=
  let base : TrackerLine :=
    { id := id
      originalPosition := -1
      currentPosition := -1
      removedAtPosition := -1
      changeAtPosition := -1
      contentSameOriginal := false
      hash := none
      original := none
      current := none
      removedTimeStamp := -1
      changedTimeStamp := -1
      addedTimeStamp := now }
  let t1 := match params.originalPosition with
    | some v => { base with originalPosition := v }
    | none => base
  let t2 := match params.currentPosition with
    | some v => { t1 with currentPosition := v }
    | none => t1
  let t3 := match params.content with
    | some c => { t2 with current := some c, hash := some (thash c) }
    | none => t2
  match params.contentSameOriginal with
  | some true =>
    { t3 with
      original := params.content
      contentSameOriginal := t3.existedInOriginal && t3.contentHashed }
  | _ => t3

/-- `isEq`: trackers are equal when they have the same id (reference equality
implies id equality). -/
def TrackerLine.isEq (t item : TrackerLine) : Bool := item.id == t.id

/-- `isStateGhost`: never existed originally, no longer exists, was removed. -/
def TrackerLine.isStateGhost (t : TrackerLine) : Bool :=
  !t.existedInOriginal && !t.existedInCurrent && t.wasExplicitlyRemoved

/-- `isStateRemoved`: existed originally, no longer exists, was removed. -/
def TrackerLine.isStateRemoved (t : TrackerLine) : Bool :=
  !t.existedInCurrent && t.existedInOriginal && t.wasExplicitlyRemoved

/-- `isStateRemovedAt`: removed with the removal recorded at `line`. -/
def TrackerLine.isStateRemovedAt (t : TrackerLine) (line : Int) : Bool :=
  !t.existedInCurrent && t.existedInOriginal && t.removedAtPosition == line

/-- `isStateAdded`: never existed originally, never removed, exists now. -/
def TrackerLine.isStateAdded (t : TrackerLine) : Bool :=
  !t.existedInOriginal && !t.wasExplicitlyRemoved && t.existedInCurrent

/-- `isStateChanged`: original line, still present, content differs, not
removed, explicitly changed. -/
def TrackerLine.isStateChanged (t : TrackerLine) : Bool :=
  t.existedInOriginal && t.existedInCurrent && !t.contentSameOriginal &&
    !t.wasExplicitlyRemoved && t.wasExplicitlyChanged

/-- `isStateOriginal`: original line, content matches original, not removed. -/
def TrackerLine.isStateOriginal (t : TrackerLine) : Bool :=
  t.existedInOriginal && t.contentSameOriginal && !t.wasExplicitlyRemoved

/-- `isStateRestored`: content matches original, not removed, but explicitly
changed at some point. -/
def TrackerLine.isStateRestored (t : TrackerLine) : Bool :=
  t.contentSameOriginal && !t.wasExplicitlyRemoved && t.wasExplicitlyChanged

/-- `isCurrentAt`. -/
def TrackerLine.isCurrentAt (t : TrackerLine) (line : Int) : Bool :=
  t.currentPosition == line

/-- `isCurrentGT`. -/
def TrackerLine.isCurrentGT (t : TrackerLine) (line : Int) : Bool :=
  decide (line < t.currentPosition)

/-- `isCurrentLT`. -/
def TrackerLine.isCurrentLT (t : TrackerLine) (line : Int) : Bool :=
  decide (t.currentPosition < line)

/-- `getCurrentPositionOffset`. -/
def TrackerLine.getCurrentPositionOffset (t : TrackerLine) (line : Int) : Int :=
  line - t.currentPosition

/-- `isOriginAt`. -/
def TrackerLine.isOriginAt (t : TrackerLine) (line : Int) : Bool :=
  t.originalPosition == line

/-- JavaScript falsiness of the optional `to` bound used by the range checks:
an omitted bound and a bound of `0` both disable the upper limit (`!to`). -/
def boundFalsy : Option Int → Bool
  | none => true
  | some v => v == 0

/-- `isOriginalInRange`: `originalPosition >= from && (!to || originalPosition <= to)`. -/
def TrackerLine.isOriginalInRange (t : TrackerLine) (lo : Int) (hi : Option Int) : Bool :=
  decide (lo ≤ t.originalPosition) &&
    (boundFalsy hi || decide (t.originalPosition ≤ hi.getD 0))

/-- `isCurrentInRange`: `currentPosition >= from && (!to || currentPosition <= to)`. -/
def TrackerLine.isCurrentInRange (t : TrackerLine) (lo : Int) (hi : Option Int) : Bool :=
  decide (lo ≤ t.currentPosition) &&
    (boundFalsy hi || decide (t.currentPosition ≤ hi.getD 0))

/-- `isRemoveInRange`: `removedAtPosition >= from && (!to || removedAtPosition <= to)`. -/
def TrackerLine.isRemoveInRange (t : TrackerLine) (lo : Int) (hi : Option Int) : Bool :=
  decide (lo ≤ t.removedAtPosition) &&
    (boundFalsy hi || decide (t.removedAtPosition ≤ hi.getD 0))

/-- `moveTo`: relocate a currently existing line. -/
def TrackerLine.moveTo (t : TrackerLine) (line : Int) : TrackerLine :=
  if !t.existedInCurrent then t
  else { t with currentPosition := line, changeAtPosition := line }

/-- `restore`: bring a line that existed originally back at `line` (default:
its removal position), clearing the removal markers. -/
def TrackerLine.restore (t : TrackerLine) (line : Option Int) : TrackerLine :=
  if !t.existedInOriginal then t
  else
    { t with
      currentPosition := line.getD t.removedAtPosition
      changeAtPosition := line.getD t.removedAtPosition
      removedAtPosition := -1
      removedTimeStamp := -1 }

/-- `remove`: mark the line removed at `line` (default: its current position);
no-op when already removed. -/
def TrackerLine.remove (t : TrackerLine) (line : Option Int) (now : Int) : TrackerLine :=
  if t.wasExplicitlyRemoved then t
  else
    { t with
      removedAtPosition := line.getD t.currentPosition
      currentPosition := -1
      removedTimeStamp := now }

/-- `change`: update content if the line exists; skipped when the new hash
equals the stored hash and the content already matches the original. Note the
stored `hash` field is never reassigned. -/
def TrackerLine.change (t : TrackerLine) (content : Option String) (line : Option Int)
    (now : Int) : TrackerLine :=
  match content with
  | none => t
  | some c =>
    if !t.existedInCurrent then t
    else
      let h : Int := thash c
      if some h == t.hash && t.contentSameOriginal then t
      else
        { t with
          current := some c
          contentSameOriginal := t.hash == some h
          changeAtPosition := line.getD t.currentPosition
          changedTimeStamp := now }

/-- `shiftUp(offset)`: add `offset` to `currentPosition` when the line exists
and to `removedAtPosition` when the line existed originally and was removed. -/
def TrackerLine.shiftUp (t : TrackerLine) (offset : Int) : TrackerLine :=
  let t1 := if t.existedInCurrent then { t with currentPosition := t.currentPosition + offset } else t
  if t1.existedInOriginal && t1.wasExplicitlyRemoved then
    { t1 with removedAtPosition := t1.removedAtPosition + offset }
  else t1

/-- `shiftDown(offset)`: subtract `offset` from `currentPosition` when the line
exists and from `removedAtPosition` when the line existed originally and was
removed. -/
def TrackerLine.shiftDown (t : TrackerLine) (offset : Int) : TrackerLine :=
  let t1 := if t.existedInCurrent then { t with currentPosition := t.currentPosition - offset } else t
  if t1.existedInOriginal && t1.wasExplicitlyRemoved then
    { t1 with removedAtPosition := t1.removedAtPosition - offset }
  else t1

/-- `FileSnapshot` (the per-document snapshot class): original lines, current
state lines, the tracker collection, and the derived change map. The change
map (an `ArrayMap<ChangeLine>`, a JavaScript `Map` keyed by position) is
modelled as an association list in insertion order with unique keys. -/
structure FileSnapshot where
  id : Nat
  lines : List String
  timestamp : Int
  changes : List (Int × ChangeLine)
  tracker : List TrackerLine
  lastHash : Option Int
  state : List String
  lineBreak : String
deriving DecidableEq, Repr

/-- `updateState`: replace the current state and recompute `lastHash` from the
joined content (the array-argument path; every caller passes an array). -/
def FileSnapshot.updateState (s : FileSnapshot) (content : List String) : FileSnapshot :=
  { s with
    state := content
    lastHash := some (thash (String.intercalate s.lineBreak content)) }

/-- The `FileSnapshot` constructor: split the content by the line break, create
one tracker per original line (with `contentSameOriginal: true`), and save the
initial state. Tracker ids are the original indices, modelling the unique
random ids of the source. -/
def mkFileSnapshot (content : String) (lineBreak : String) (now : Int) : FileSnapshot :=
  let lines := jsSplit content lineBreak
  let tracker := lines.enum.map (fun p =>
    mkTrackerLine
      { content := some p.2
        originalPosition := some (p.1 : Int)
        currentPosition := some (p.1 : Int)
        contentSameOriginal := some true }
      p.1 now)
  FileSnapshot.updateState
    { id := 0
      lines := lines
      timestamp := now
      changes := []
      tracker := tracker
      lastHash := none
      state := []
      lineBreak := lineBreak }
    lines

/-- `isNeedUpdate`: the stored hash differs from the hash of the given content. -/
def FileSnapshot.isNeedUpdate (s : FileSnapshot) (content : String) : Bool :=
  s.lastHash != some (thash content)

/-- The tag a tracker contributes to the change map, following the dispatch
order of `updateChanges`: removed, added, restored, changed, else nothing; a
ghost tracker is skipped entirely. -/
def TrackerLine.primaryTag (t : TrackerLine) : Option ChangeType :=
  if t.isStateGhost then none
  else if t.isStateRemoved then some ChangeType.removed
  else if t.isStateAdded then some ChangeType.added
  else if t.isStateRestored then some ChangeType.restored
  else if t.isStateChanged then some ChangeType.changed
  else none

/-- The position a tracker is keyed under in the change map: the removal
position for removed trackers, the current position otherwise. -/
def TrackerLine.changePos (t : TrackerLine) : Int :=
  if t.isStateRemoved then t.removedAtPosition else t.currentPosition

/-- One iteration of the `updateChanges` loop body for a single tracker:
skip ghosts, fetch or create the `ChangeLine` at the tracker's position, and
record the tracker's tag (if any) on it. -/
def updateChangesStep (store : List (Int × ChangeLine)) (t : TrackerLine) :
    List (Int × ChangeLine) :=
  if t.isStateGhost then store
  else
    let pos := t.changePos
    let applyTag : ChangeLine → ChangeLine := fun cl =>
      match t.primaryTag with
      | none => cl
      | some ty => cl.add ty
    if (store.find? (fun e => e.1 == pos)).isSome then
      store.map (fun e => if e.1 == pos then (e.1, applyTag e.2) else e)
    else
      store ++ [(pos, applyTag (ChangeLine.mk pos []))]

/-- `updateChanges`: clear the map and rebuild it with one pass over the
trackers, in collection order. (The default `getTracker()` ordering uses the
direction string `'acs'`, which matches neither `'asc'` nor `'dsc'` in the
comparator, so the stable sort leaves the insertion order unchanged.) -/
def FileSnapshot.updateChanges (s : FileSnapshot) : FileSnapshot :=
  { s with changes := s.tracker.foldl updateChangesStep [] }

/-- `getChangesLinesCount`: the size of `getChanges([changed, added, removed])`,
i.e. the number of change-map entries carrying at least one of those tags.
`getChanges` re-keys the filtered entries by their line in a fresh map, so the
size is the number of distinct lines among them. -/
def FileSnapshot.getChangesLinesCount (s : FileSnapshot) : Nat :=
  (((s.changes.filter
      (fun e => e.2.hasAny [ChangeType.changed, ChangeType.added, ChangeType.removed])).map
    (fun e => e.2.getLine)).dedup).length

/-- `findCurrentLine`: the first tracker, in collection order, currently at
`line` and with its current position inside `[0, to]`. -/
def FileSnapshot.findCurrentLine (s : FileSnapshot) (line : Int) (hi : Option Int) :
    Option TrackerLine :=
  s.tracker.find? (fun t => t.isCurrentAt line && t.isCurrentInRange 0 hi)

/-- `findOriginalLine`: the first tracker that existed originally whose current
(`visible`) or original (`!visible`) position is `line`, with its original
position inside `[0, to]`. -/
def FileSnapshot.findOriginalLine (s : FileSnapshot) (line : Int) (hi : Option Int)
    (visible : Bool) : Option TrackerLine :=
  s.tracker.find? (fun t =>
    (if visible then t.isCurrentAt line else t.isOriginAt line) &&
      t.existedInOriginal && t.isOriginalInRange 0 hi)

/-- Stable insertion for the descending-`removedTimeStamp` ordering used by
`findRemovedAt`: an element is placed before the first strictly smaller key,
after equal keys, which matches the stable JavaScript sort with comparator
`vb - va`. -/
def insertByRemovedDesc (a : TrackerLine) : List TrackerLine → List TrackerLine
  | [] => [a]
  | b :: bs =>
    if b.removedTimeStamp ≤ a.removedTimeStamp then a :: b :: bs
    else b :: insertByRemovedDesc a bs

/-- The tracker list sorted by `removedTimeStamp` descending (stable). -/
def sortByRemovedDesc : List TrackerLine → List TrackerLine
  | [] => []
  | a :: rest => insertByRemovedDesc a (sortByRemovedDesc rest)

/-- `findRemovedAt`: among the trackers ordered by removal time (most recent
first), the first one removed at `line`. -/
def FileSnapshot.findRemovedAt (s : FileSnapshot) (line : Int) : Option TrackerLine :=
  (sortByRemovedDesc s.tracker).find? (fun t => t.isStateRemovedAt line)

/-- Snapshot-level `shiftUp`: shift every tracker whose current position lies
in `[line, to]` (the per-tracker `shiftUp` also moves the removal position of
removed original lines). The returned positions record is unused by callers
and omitted. -/
def FileSnapshot.shiftUp (s : FileSnapshot) (line : Int) (hi : Option Int) (offset : Int) :
    FileSnapshot :=
  { s with tracker := s.tracker.map (fun t =>
      if t.isCurrentInRange line hi then t.shiftUp offset else t) }

/-- Snapshot-level `shiftUpRemoved`: same, for trackers whose removal position
lies in `[line, to]`. -/
def FileSnapshot.shiftUpRemoved (s : FileSnapshot) (line : Int) (hi : Option Int)
    (offset : Int) : FileSnapshot :=
  { s with tracker := s.tracker.map (fun t =>
      if t.isRemoveInRange line hi then t.shiftUp offset else t) }

/-- Snapshot-level `shiftDown`. -/
def FileSnapshot.shiftDown (s : FileSnapshot) (line : Int) (hi : Option Int) (offset : Int) :
    FileSnapshot :=
  { s with tracker := s.tracker.map (fun t =>
      if t.isCurrentInRange line hi then t.shiftDown offset else t) }

/-- Snapshot-level `shiftDownRemoved`. -/
def FileSnapshot.shiftDownRemoved (s : FileSnapshot) (line : Int) (hi : Option Int)
    (offset : Int) : FileSnapshot :=
  { s with tracker := s.tracker.map (fun t =>
      if t.isRemoveInRange line hi then t.shiftDown offset else t) }

/-- `addTrackerLine`: create a tracker from the parameters and push it. -/
def FileSnapshot.addTrackerLine (s : FileSnapshot) (params : TrackerLineParams)
    (freshId : Nat) (now : Int) : FileSnapshot :=
  { s with tracker := s.tracker ++ [mkTrackerLine params freshId now] }

/-- `removeTrackerLine`: find the tracker by reference/id (or by current line
for a number argument) and splice it out; no-op when absent. `findIndex`
followed by `splice(index, 1)` is exactly `List.eraseP`. -/
def FileSnapshot.removeTrackerLine (s : FileSnapshot) (line : Sum Int TrackerLine) :
    FileSnapshot :=
  let p : TrackerLine → Bool := match line with
    | Sum.inl n => fun u => u.isCurrentAt n
    | Sum.inr t => fun u => u.isEq t
  { s with tracker := s.tracker.eraseP p }

/-- `restoreOrAddTracker(line, shift)`: restore the removed tracker found at the
slot (or the given tracker instance), or add a brand-new tracker there; with
`shift`, first make room by shifting current occupants up, and afterwards shift
removed-records up. In-place mutation of the found tracker is modelled by
rewriting the list entry with the matching id. -/
def FileSnapshot.restoreOrAddTracker (s : FileSnapshot) (line : Sum Int TrackerLine)
    (shift : Bool) (freshId : Nat) (now : Int) : FileSnapshot :=
  let removed : Option TrackerLine := match line with
    | Sum.inl n => s.findRemovedAt n
    | Sum.inr t => some t
  let index : Int := match line with
    | Sum.inl n => n
    | Sum.inr t => t.removedAtPosition
  let s1 := if shift then s.shiftUp index none 1 else s
  let s2 := match removed with
    | some r =>
      { s1 with tracker := s1.tracker.map (fun t =>
          if t.id == r.id then t.restore (some index) else t) }
    | none => s1
  let s3 := if shift then s2.shiftUpRemoved index none 1 else s2
  match removed with
  | some _ => s3
  | none => s3.addTrackerLine { currentPosition := some index } freshId now

/-- `removeTrackerOrLine(line, shift)`: locate the tracker (by current line or
instance); with `shift`, close the gap below it; then either mark it removed
(when it existed originally) or delete it from the collection outright. -/
def FileSnapshot.removeTrackerOrLine (s : FileSnapshot) (line : Sum Int TrackerLine)
    (shift : Bool) (now : Int) : FileSnapshot :=
  let found : Option TrackerLine := match line with
    | Sum.inl n => s.findCurrentLine n none
    | Sum.inr t => some t
  let index : Int := match line with
    | Sum.inl n => n
    | Sum.inr t => t.currentPosition
  match found with
  | none => s
  | some tr =>
    let s1 := if shift then (s.shiftDown (index + 1) none 1).shiftDownRemoved (index + 1) none 1 else s
    if tr.existedInOriginal then
      { s1 with tracker := s1.tracker.map (fun t =>
          if t.id == tr.id then t.remove none now else t) }
    else
      s1.removeTrackerLine (Sum.inr tr)

/-- `linesDiffCount` as computed by `computeIncrementalChanges` for one change
tuple: `(fromOldLine - toOldLine) + (toNewLine - fromNewLine)`. -/
def linesDiffCount (fromOldLine toOldLine fromNewLine toNewLine : Int) : Int :=
  (fromOldLine - toOldLine) + (toNewLine - fromNewLine)

/-- The removal loop of `computeIncrementalChanges`: for `i` from `0` to
`count - 1`, remove the tracker at old index `toOldLine - i` (bottom-up). Fresh
calls consume increasing `now` stamps implicitly; a single stamp suffices for
the model. -/
def applyRemovals (s : FileSnapshot) (toOldLine : Int) (count : Nat) (now : Int) :
    FileSnapshot :=
  (List.range count).foldl
    (fun acc i => acc.removeTrackerOrLine (Sum.inl (toOldLine - (i : Int))) true now) s

/-- The addition loop of `computeIncrementalChanges`: for `i` from `1` to
`count`, restore-or-add a tracker at new index `fromNewLine + i` (top-down).
Fresh ids for brand-new trackers are drawn from `baseId`. -/
def applyAdditions (s : FileSnapshot) (fromNewLine : Int) (count : Nat) (baseId : Nat)
    (now : Int) : FileSnapshot :=
  (List.range count).foldl
    (fun acc (i : Nat) =>
      acc.restoreOrAddTracker (Sum.inl (fromNewLine + (i : Int) + 1)) true (baseId + i) now)
    s

/-- JavaScript array indexing `currentLines[lineNumber]` with an `Int` index:
out-of-range and negative indices give `undefined`. -/
def jsIndex (l : List String) (i : Int) : Option String :=
  if i < 0 then none else l.get? i.toNat

/-- The content loop of `computeIncrementalChanges`: for each of the inserted
text's own lines, look up the tracker now at `start + offset` and update its
content from the post-edit document. -/
def applyContentLoop (s : FileSnapshot) (start : Int) (insertedLines : Nat)
    (currentLines : List String) (now : Int) : FileSnapshot :=
  (List.range insertedLines).foldl
    (fun acc offset =>
      let lineNumber := start + (offset : Int)
      match acc.findCurrentLine lineNumber none with
      | none => acc
      | some tr =>
        { acc with tracker := acc.tracker.map (fun u =>
            if u.id == tr.id then u.change (jsIndex currentLines lineNumber) none now else u) })
    s

/-- Processing of one change tuple by `computeIncrementalChanges`: compute
`linesDiffCount`, run the removal loop when it is negative, the addition loop
when it is positive, then the content loop over the inserted lines starting at
`min(fromNewLine, toNewLine)`. -/
def applyChangeTuple (s : FileSnapshot) (fromOldLine toOldLine fromNewLine toNewLine : Int)
    (insertedLines : Nat) (currentLines : List String) (baseId : Nat) (now : Int) :
    FileSnapshot :=
  let start := min fromNewLine toNewLine
  let d := linesDiffCount fromOldLine toOldLine fromNewLine toNewLine
  let s1 := if d < 0 then applyRemovals s toOldLine d.natAbs now else s
  let s2 := if 0 < d then applyAdditions s1 fromNewLine d.natAbs baseId now else s1
  applyContentLoop s2 start insertedLines currentLines now

/-- An original line whose content was edited away (`"a"` to `"b"`) and then
edited back (`"b"` to `"a"`): the concrete-scenario-3 tracker. -/
def trackerC1 : TrackerLine :=
  ((mkTrackerLine
      { content := some "a"
        originalPosition := some 0
        currentPosition := some 0
        contentSameOriginal := some true } 0 0).change (some "b") none 1).change (some "a") none 2

/-- A ghost-classified tracker used to exercise the ghost branch of the
classification lemmas: an added line that was explicitly removed. -/
def trackerC1ghost : TrackerLine :=
  (mkTrackerLine { content := some "x", currentPosition := some 0 } 0 0).remove none 7

/-- An original line whose content was edited from `"a"` to `"b"`. -/
def trackerC7 : TrackerLine :=
  (mkTrackerLine
      { content := some "a"
        originalPosition := some 0
        currentPosition := some 0
        contentSameOriginal := some true } 0 0).change (some "b") none 5

/-- A fresh original-line tracker for the change-method witness. -/
def trackerC7w : TrackerLine :=
  mkTrackerLine
    { content := some "a"
      originalPosition := some 0
      currentPosition := some 0
      contentSameOriginal := some true } 0 0

/-- An added line that was explicitly removed: it is "currently removed"
(`removedAtPosition` is set, the line no longer exists) but never existed in
the original document. -/
def trackerC9ghost : TrackerLine :=
  (mkTrackerLine { content := some "x", currentPosition := some 0 } 0 0).remove none 7

/-- A fresh original-line tracker for the round-trip witness. -/
def trackerC5w : TrackerLine :=
  mkTrackerLine
    { content := some "a"
      originalPosition := some 0
      currentPosition := some 0
      contentSameOriginal := some true } 0 0

/-- A fresh original-line tracker (exists, never removed) for the
no-argument-restore witness. -/
def trackerC10w : TrackerLine :=
  mkTrackerLine
    { content := some "a"
      originalPosition := some 0
      currentPosition := some 0
      contentSameOriginal := some true } 0 0

/-- A small snapshot for the change-tuple witness. -/
def snapC2w : FileSnapshot := mkFileSnapshot "a\nb\nc" "\n" 0

/-- A snapshot of original `["a","b","c"]` after twice removing the line at
position 0: the tracker for `"c"` (original position 2) ends at current
position 0, while `"a"` and `"b"` are removal records. -/
def snapC8 : FileSnapshot :=
  ((mkFileSnapshot "a\nb\nc" "\n" 0).removeTrackerOrLine (Sum.inl 0) true 1).removeTrackerOrLine
    (Sum.inl 0) true 2

/-- A two-line snapshot for the `findCurrentLine` witness. -/
def snapC8w : FileSnapshot := mkFileSnapshot "a\nb" "\n" 0

/-- The tracker of line 0 of `snapC8w` (original `"a"` at position 0). -/
def trackerC8w : TrackerLine :=
  { id := 0
    originalPosition := 0
    currentPosition := 0
    removedAtPosition := -1
    changeAtPosition := -1
    contentSameOriginal := true
    hash := some 97
    original := some "a"
    current := some "a"
    removedTimeStamp := -1
    changedTimeStamp := -1
    addedTimeStamp := 0 }

/-- All trackers that exist in the current document occupy pairwise distinct
current positions. -/
def DistinctCurrent (l : List TrackerLine) : Prop :=
  l.Pairwise (fun a b => a.existedInCurrent = true → b.existedInCurrent = true →
    a.currentPosition ≠ b.currentPosition)

/-- All tracker ids in the collection are distinct (the source draws them from
a random-id generator and treats them as unique). -/
def NodupIds (l : List TrackerLine) : Prop := l.Pairwise (fun a b => a.id ≠ b.id)

/-- No tracker is simultaneously present in the current document and marked
removed; this holds in every state reachable through the tracker API, since
`remove` clears the current position and `restore` clears the removal marker. -/
def NoCurrentRemoved (l : List TrackerLine) : Prop :=
  ∀ t ∈ l, t.existedInCurrent = true → t.wasExplicitlyRemoved = false

/-- Distinct current positions, phrased on the raw fields: when both trackers
have a current position other than the sentinel, the positions differ. -/
def CurNe (a b : TrackerLine) : Prop :=
  a.currentPosition ≠ -1 → b.currentPosition ≠ -1 → a.currentPosition ≠ b.currentPosition

/-- Combined relation carried through the shifting proofs: distinct ids and
distinct current positions (when both lines exist). -/
def IdCur (a b : TrackerLine) : Prop := a.id ≠ b.id ∧ CurNe a b

/-- The per-tracker transform applied by the snapshot-level `shiftUp(line)`. -/
def gShiftUp (line : Int) (t : TrackerLine) : TrackerLine :=
  if t.isCurrentInRange line none then t.shiftUp 1 else t

/-- The per-tracker transform applied by the snapshot-level `shiftUpRemoved(line)`. -/
def gShiftUpRemoved (line : Int) (t : TrackerLine) : TrackerLine :=
  if t.isRemoveInRange line none then t.shiftUp 1 else t

/-- The per-tracker transform modelling `removed.restore(index)` on the tracker
object with id `rid` held inside the collection. -/
def gRestore (rid : Nat) (line : Int) (t : TrackerLine) : TrackerLine :=
  if t.id == rid then t.restore (some line) else t

instance (l : List TrackerLine) : Decidable (DistinctCurrent l) := by
  unfold DistinctCurrent; infer_instance

instance (l : List TrackerLine) : Decidable (NodupIds l) := by
  unfold NodupIds; infer_instance

instance (l : List TrackerLine) : Decidable (NoCurrentRemoved l) := by
  unfold NoCurrentRemoved; infer_instance

/-- A two-line snapshot whose second line has been removed, used as the
restore-or-add witness state. -/
def snapC3w : FileSnapshot := (mkFileSnapshot "a\nb" "\n" 0).removeTrackerOrLine (Sum.inl 1) true 5

/-- The per-tracker transform applied by the snapshot-level `shiftDown(line)`. -/
def gShiftDown (line : Int) (t : TrackerLine) : TrackerLine :=
  if t.isCurrentInRange line none then t.shiftDown 1 else t

/-- The per-tracker transform applied by the snapshot-level `shiftDownRemoved(line)`. -/
def gShiftDownRemoved (line : Int) (t : TrackerLine) : TrackerLine :=
  if t.isRemoveInRange line none then t.shiftDown 1 else t

/-- The per-tracker transform modelling `tracker.remove()` on the tracker
object with id `rid` held inside the collection. -/
def gRemove (rid : Nat) (now : Int) (t : TrackerLine) : TrackerLine :=
  if t.id == rid then t.remove none now else t

/-- A two-line snapshot for the remove witness. -/
def snapC6w : FileSnapshot := mkFileSnapshot "a\nb" "\n" 0

/-- The tracker of line 1 of `snapC6w` (original `"b"` at position 1). -/
def trackerC6w : TrackerLine :=
  { id := 1
    originalPosition := 1
    currentPosition := 1
    removedAtPosition := -1
    changeAtPosition := -1
    contentSameOriginal := true
    hash := some 98
    original := some "b"
    current := some "b"
    removedTimeStamp := -1
    changedTimeStamp := -1
    addedTimeStamp := 0 }

/-- Snapshot of original `["a","b","c"]` after the edit transaction that
deletes the last line `"c"` (one change tuple spanning old lines 1..2 and new
lines 1..1, inserted text of one line): tracker `"c"` becomes a removal record
at position 2. -/
def snapC4a : FileSnapshot :=
  ((applyChangeTuple (mkFileSnapshot "a\nb\nc" "\n" 0) 1 2 1 1 1 ["a", "b"] 100
    10).updateState ["a", "b"]).updateChanges

/-- `snapC4a` after inserting a new first line `"x"` (one tuple spanning old
lines 0..0 and new lines 0..1, inserted text `"x\n"` of two lines): the new
tracker is added at position 1, `"a"` becomes changed at 0 and `"c"`'s removal
record shifts to position 3 = current length. -/
def snapC4b : FileSnapshot :=
  ((applyChangeTuple snapC4a 0 0 0 1 2 ["x", "a", "b"] 200 20).updateState
    ["x", "a", "b"]).updateChanges

/-- `snapC4b` after editing line 2 from `"b"` to `"B"` (a pure content tuple):
positions 0, 1, 2 carry changed/added/changed tags and position 3 carries the
removed tag — four tagged entries against three document lines. -/
def snapC4c : FileSnapshot :=
  ((applyChangeTuple snapC4b 2 2 2 2 1 ["x", "a", "B"] 300 30).updateState
    ["x", "a", "B"]).updateChanges

/-- A fresh two-line snapshot for the change-count witness. -/
def snapC4w : FileSnapshot := mkFileSnapshot "a\nb" "\n" 0

/-- C1 counterexample input is reachable: scenario 3 of the specification. The
classification predicates below are evaluated on it. -/
theorem c1_counterexample :
    trackerC1.isStateOriginal = true ∧ trackerC1.isStateRestored = true := by decide

/-- C1 (amended): the classification predicates are pairwise exclusive for
every pair except {original, restored} and {added, restored}; an explicitly
changed line whose content matches the original satisfies `isStateRestored`
together with `isStateOriginal` (if it existed originally) or with
`isStateAdded` (if it did not). -/
theorem c1_classification_exclusive (t : TrackerLine) :
    (t.isStateGhost = true →
      t.isStateRemoved = false ∧ t.isStateAdded = false ∧ t.isStateChanged = false ∧
        t.isStateOriginal = false ∧ t.isStateRestored = false) ∧
    (t.isStateRemoved = true →
      t.isStateAdded = false ∧ t.isStateChanged = false ∧ t.isStateOriginal = false ∧
        t.isStateRestored = false) ∧
    (t.isStateAdded = true → t.isStateChanged = false ∧ t.isStateOriginal = false) ∧
    (t.isStateChanged = true → t.isStateOriginal = false ∧ t.isStateRestored = false) := by
  simp only [TrackerLine.isStateGhost, TrackerLine.isStateRemoved, TrackerLine.isStateAdded,
    TrackerLine.isStateChanged, TrackerLine.isStateOriginal, TrackerLine.isStateRestored]
  cases h1 : t.existedInOriginal <;> cases h2 : t.existedInCurrent <;>
    cases h3 : t.wasExplicitlyRemoved <;> cases h4 : t.wasExplicitlyChanged <;>
      cases h5 : t.contentSameOriginal <;> simp

/-- Witness for `c1_classification_exclusive` at a concrete ghost tracker. -/
theorem c1_classification_exclusive_witness :
    trackerC1ghost.isStateRemoved = false ∧ trackerC1ghost.isStateAdded = false ∧
      trackerC1ghost.isStateChanged = false ∧ trackerC1ghost.isStateOriginal = false ∧
      trackerC1ghost.isStateRestored = false :=
  (c1_classification_exclusive trackerC1ghost).1 (by decide)

/-- C2 counterexample: for a tuple spanning old lines 0..2 and new lines 0..0
(a net removal of two lines), the code computes `linesDiffCount = -2`, whereas
the claimed formula (old line span) − (new line span) gives `2`. -/
theorem c2_counterexample :
    linesDiffCount 0 2 0 0 = -2 ∧
    ((2 : Int) - 0) - ((0 : Int) - 0) = 2 ∧
    linesDiffCount 0 2 0 0 ≠ ((2 : Int) - 0) - ((0 : Int) - 0) := by decide

/-- C2 (amended): `linesDiffCount` equals (new line span) − (old line span);
it is negative exactly when the tuple removes lines and positive exactly when
it adds lines, and the change-tuple processing runs the removal loop exactly
when it is negative and the addition loop exactly when it is positive. -/
theorem c2_linesDiffCount (fo tol fn tn : Int) (s : FileSnapshot) (il : Nat)
    (cl : List String) (b : Nat) (now : Int) :
    linesDiffCount fo tol fn tn = (tn - fn) - (tol - fo) ∧
    (linesDiffCount fo tol fn tn < 0 ↔ tn - fn < tol - fo) ∧
    (0 < linesDiffCount fo tol fn tn ↔ tol - fo < tn - fn) ∧
    (linesDiffCount fo tol fn tn < 0 →
      applyChangeTuple s fo tol fn tn il cl b now =
        applyContentLoop (applyRemovals s tol (linesDiffCount fo tol fn tn).natAbs now)
          (min fn tn) il cl now) ∧
    (0 < linesDiffCount fo tol fn tn →
      applyChangeTuple s fo tol fn tn il cl b now =
        applyContentLoop (applyAdditions s fn (linesDiffCount fo tol fn tn).natAbs b now)
          (min fn tn) il cl now) ∧
    (linesDiffCount fo tol fn tn = 0 →
      applyChangeTuple s fo tol fn tn il cl b now = applyContentLoop s (min fn tn) il cl now) := by
  refine ⟨by unfold linesDiffCount; ring, by unfold linesDiffCount; omega,
    by unfold linesDiffCount; omega, ?_, ?_, ?_⟩
  · intro h
    unfold applyChangeTuple
    dsimp only
    rw [if_pos h, if_neg (by omega)]
  · intro h
    unfold applyChangeTuple
    dsimp only
    rw [if_neg (show ¬linesDiffCount fo tol fn tn < 0 by omega), if_pos h]
  · intro h
    unfold applyChangeTuple
    dsimp only
    rw [if_neg (show ¬linesDiffCount fo tol fn tn < 0 by omega),
      if_neg (show ¬0 < linesDiffCount fo tol fn tn by omega)]

/-- Witness for `c2_linesDiffCount`: a concrete net-removal tuple takes the
removal branch. -/
theorem c2_linesDiffCount_witness :
    applyChangeTuple snapC2w 0 2 0 0 1 ["a"] 50 9 =
      applyContentLoop (applyRemovals snapC2w 2 (linesDiffCount 0 2 0 0).natAbs 9)
        (min 0 0) 1 ["a"] 9 :=
  (c2_linesDiffCount 0 2 0 0 snapC2w 1 ["a"] 50 9).2.2.2.1 (by decide)

/-- C5 (confirmed): removing an existing original line at its position `p` and
then restoring it at `p` leaves a tracker that is not ghost, not removed and
not added; it is classified `restored` exactly when its content still matches
the original and `changed` exactly otherwise, and its change-map tag is
`restored` respectively `changed`. -/
theorem c5_remove_restore_round_trip (t : TrackerLine) (p : Int) (now : Int)
    (h1 : t.existedInOriginal = true) (_h2 : t.currentPosition = p) (h3 : 0 ≤ p)
    (h4 : t.wasExplicitlyRemoved = false) :
    ((t.remove (some p) now).restore (some p)).isStateGhost = false ∧
    ((t.remove (some p) now).restore (some p)).isStateRemoved = false ∧
    ((t.remove (some p) now).restore (some p)).isStateAdded = false ∧
    ((t.remove (some p) now).restore (some p)).isStateRestored = t.contentSameOriginal ∧
    ((t.remove (some p) now).restore (some p)).isStateChanged = !t.contentSameOriginal ∧
    ((t.remove (some p) now).restore (some p)).primaryTag =
      (if t.contentSameOriginal = true then some ChangeType.restored
       else some ChangeType.changed) := by
  have hp : p ≠ -1 := by omega
  have hO : t.originalPosition ≠ -1 := by
    simpa [TrackerLine.existedInOriginal] using h1
  have e1 : t.remove (some p) now =
      { t with
        removedAtPosition := p
        currentPosition := -1
        removedTimeStamp := now } := by
    unfold TrackerLine.remove
    rw [if_neg (by simp [h4])]
    rfl
  have e2 : (t.remove (some p) now).restore (some p) =
      { t with
        currentPosition := p
        changeAtPosition := p
        removedAtPosition := -1
        removedTimeStamp := -1 } := by
    rw [e1]
    unfold TrackerLine.restore
    rw [if_neg (by simp [TrackerLine.existedInOriginal, hO])]
    rfl
  rw [e2]
  unfold TrackerLine.primaryTag TrackerLine.isStateGhost TrackerLine.isStateRemoved
    TrackerLine.isStateAdded TrackerLine.isStateRestored TrackerLine.isStateChanged
  simp only [TrackerLine.existedInOriginal, TrackerLine.existedInCurrent,
    TrackerLine.wasExplicitlyRemoved, TrackerLine.wasExplicitlyChanged]
  cases h5 : t.contentSameOriginal <;> simp [hO, hp, h5]

/-- Witness for `c5_remove_restore_round_trip` at a fresh original line. -/
theorem c5_remove_restore_round_trip_witness :
    ((trackerC5w.remove (some 0) 9).restore (some 0)).isStateGhost = false ∧
    ((trackerC5w.remove (some 0) 9).restore (some 0)).isStateRemoved = false ∧
    ((trackerC5w.remove (some 0) 9).restore (some 0)).isStateAdded = false ∧
    ((trackerC5w.remove (some 0) 9).restore (some 0)).isStateRestored =
      trackerC5w.contentSameOriginal ∧
    ((trackerC5w.remove (some 0) 9).restore (some 0)).isStateChanged =
      !trackerC5w.contentSameOriginal ∧
    ((trackerC5w.remove (some 0) 9).restore (some 0)).primaryTag =
      (if trackerC5w.contentSameOriginal = true then some ChangeType.restored
       else some ChangeType.changed) :=
  c5_remove_restore_round_trip trackerC5w 0 9 (by decide) (by decide) (by decide) (by decide)

/-- C7 counterexample: after `change("b")` on a tracker constructed with
content `"a"`, the current text is `"b"` but the `hash` field still holds the
hash of `"a"`, not the hash of the current text. -/
theorem c7_counterexample :
    trackerC7.current = some "b" ∧
    trackerC7.hash = some (thash "a") ∧
    trackerC7.hash ≠ some (thash "b") := by decide

/-- C7 (amended): `change(content)` never modifies the stored `hash` field (it
keeps the hash of the construction-time content); when the line exists and the
no-op guard does not fire, it stores the new content, sets
`contentSameOriginal` to whether the stored hash equals the hash of the new
content, and records the change position. -/
theorem c7_change_keeps_hash (t : TrackerLine) (c : String) (line : Option Int) (now : Int) :
    ((t.change (some c) line now).hash = t.hash) ∧
    (t.existedInCurrent = true →
      ((some (thash c) == t.hash && t.contentSameOriginal) = false) →
      (t.change (some c) line now).current = some c ∧
      (t.change (some c) line now).contentSameOriginal = (t.hash == some (thash c)) ∧
      (t.change (some c) line now).changeAtPosition = line.getD t.currentPosition) := by
  unfold TrackerLine.change
  cases h1 : t.existedInCurrent <;>
    cases h2 : (some (thash c) == t.hash && t.contentSameOriginal) <;> simp [h1, h2]

/-- Witness for `c7_change_keeps_hash` on a fresh original line changed to
different content. -/
theorem c7_change_keeps_hash_witness :
    (trackerC7w.change (some "b") none 5).current = some "b" ∧
    (trackerC7w.change (some "b") none 5).contentSameOriginal =
      (trackerC7w.hash == some (thash "b")) ∧
    (trackerC7w.change (some "b") none 5).changeAtPosition =
      Option.getD none trackerC7w.currentPosition :=
  (c7_change_keeps_hash trackerC7w "b" none 5).2 (by decide) (by decide)

/-- C9 counterexample: a line that never existed originally but is currently
removed (`removedAtPosition = 0`, `currentPosition = -1`): `shiftUp(1)` leaves
its `removedAtPosition` unchanged even though the line is currently removed. -/
theorem c9_counterexample :
    trackerC9ghost.wasExplicitlyRemoved = true ∧
    trackerC9ghost.existedInCurrent = false ∧
    (trackerC9ghost.shiftUp 1).removedAtPosition = trackerC9ghost.removedAtPosition ∧
    (trackerC9ghost.shiftUp 1).removedAtPosition ≠ trackerC9ghost.removedAtPosition + 1 := by
  decide

/-- C9 (amended): `shiftUp(offset)` adds `offset` to `currentPosition` exactly
when the line currently exists, adds `offset` to `removedAtPosition` exactly
when the line existed in the original document and was explicitly removed, and
changes no other field; `shiftDown(offset)` does the same with subtraction. -/
theorem c9_shift_frame (t : TrackerLine) (offset : Int) :
    ((t.shiftUp offset).currentPosition =
      if t.existedInCurrent = true then t.currentPosition + offset else t.currentPosition) ∧
    ((t.shiftUp offset).removedAtPosition =
      if t.existedInOriginal = true ∧ t.wasExplicitlyRemoved = true then
        t.removedAtPosition + offset
      else t.removedAtPosition) ∧
    (t.shiftUp offset).originalPosition = t.originalPosition ∧
    (t.shiftUp offset).changeAtPosition = t.changeAtPosition ∧
    (t.shiftUp offset).contentSameOriginal = t.contentSameOriginal ∧
    (t.shiftUp offset).hash = t.hash ∧
    (t.shiftUp offset).current = t.current ∧
    (t.shiftUp offset).original = t.original ∧
    (t.shiftUp offset).id = t.id ∧
    (t.shiftUp offset).removedTimeStamp = t.removedTimeStamp ∧
    (t.shiftUp offset).changedTimeStamp = t.changedTimeStamp ∧
    (t.shiftUp offset).addedTimeStamp = t.addedTimeStamp ∧
    ((t.shiftDown offset).currentPosition =
      if t.existedInCurrent = true then t.currentPosition - offset else t.currentPosition) ∧
    ((t.shiftDown offset).removedAtPosition =
      if t.existedInOriginal = true ∧ t.wasExplicitlyRemoved = true then
        t.removedAtPosition - offset
      else t.removedAtPosition) ∧
    (t.shiftDown offset).originalPosition = t.originalPosition ∧
    (t.shiftDown offset).changeAtPosition = t.changeAtPosition ∧
    (t.shiftDown offset).contentSameOriginal = t.contentSameOriginal ∧
    (t.shiftDown offset).hash = t.hash ∧
    (t.shiftDown offset).current = t.current ∧
    (t.shiftDown offset).original = t.original ∧
    (t.shiftDown offset).id = t.id ∧
    (t.shiftDown offset).removedTimeStamp = t.removedTimeStamp ∧
    (t.shiftDown offset).changedTimeStamp = t.changedTimeStamp ∧
    (t.shiftDown offset).addedTimeStamp = t.addedTimeStamp := by
  unfold TrackerLine.shiftUp TrackerLine.shiftDown
  by_cases h1 : t.currentPosition = -1 <;> by_cases h2 : t.originalPosition = -1 <;>
    by_cases h3 : t.removedAtPosition = -1 <;>
      simp [TrackerLine.existedInOriginal, TrackerLine.existedInCurrent,
        TrackerLine.wasExplicitlyRemoved, h1, h2, h3]

/-- C10 (confirmed): for a tracker that existed originally, currently exists,
and was never removed, `restore()` with no argument sets both
`currentPosition` and `changeAtPosition` to `-1`. -/
theorem c10_restore_no_argument (t : TrackerLine)
    (h1 : t.existedInOriginal = true) (_h2 : 0 ≤ t.currentPosition)
    (h3 : t.removedAtPosition = -1) :
    (t.restore none).currentPosition = -1 ∧ (t.restore none).changeAtPosition = -1 := by
  unfold TrackerLine.restore
  rw [if_neg (by simp [h1])]
  simp [h3]

/-- Witness for `c10_restore_no_argument` at a fresh original line. -/
theorem c10_restore_no_argument_witness :
    (trackerC10w.restore none).currentPosition = -1 ∧
    (trackerC10w.restore none).changeAtPosition = -1 :=
  c10_restore_no_argument trackerC10w (by decide) (by decide) (by decide)

/-- C8 counterexample: `findCurrentLine(0, 1)` on `snapC8` returns the tracker
whose original position is 2, which lies outside the claimed original-position
range `[0, 1]`; the range check of the code constrains the current position,
not the original one. -/
theorem c8_counterexample :
    (snapC8.findCurrentLine 0 (some 1)).map TrackerLine.originalPosition = some 2 ∧
    ¬((2 : Int) ≤ 1) := by decide

/-- C8 (amended): `findCurrentLine(line, to)` returns the first tracker in
collection order whose current position equals `line` and whose current
position (not original position) passes the `[0, to]` range check (where an
omitted or zero `to` disables the upper bound); it returns none (never throws)
exactly when no tracker satisfies that test. -/
theorem c8_findCurrentLine (s : FileSnapshot) (line : Int) (hi : Option Int) :
    (∀ t, s.findCurrentLine line hi = some t →
      t ∈ s.tracker ∧ t.isCurrentAt line = true ∧ t.isCurrentInRange 0 hi = true) ∧
    (s.findCurrentLine line hi = none ↔
      ∀ t ∈ s.tracker, ¬(t.isCurrentAt line = true ∧ t.isCurrentInRange 0 hi = true)) := by
  constructor
  · intro t h
    refine ⟨List.mem_of_find?_eq_some h, ?_⟩
    have := List.find?_some h
    simpa [Bool.and_eq_true] using this
  · unfold FileSnapshot.findCurrentLine
    rw [List.find?_eq_none]
    constructor
    · intro h t ht
      have := h t ht
      simpa [Bool.and_eq_true] using this
    · intro h t ht
      have := h t ht
      simpa [Bool.and_eq_true] using this

/-- Witness for `c8_findCurrentLine` at `snapC8w`, line 0, no upper bound. -/
theorem c8_findCurrentLine_witness :
    trackerC8w ∈ snapC8w.tracker ∧ trackerC8w.isCurrentAt 0 = true ∧
      trackerC8w.isCurrentInRange 0 none = true :=
  (c8_findCurrentLine snapC8w 0 none).1 trackerC8w (by decide)

lemma isCurrentInRange_none (t : TrackerLine) (lo : Int) :
    t.isCurrentInRange lo none = decide (lo ≤ t.currentPosition) := by
  simp [TrackerLine.isCurrentInRange, boundFalsy]

lemma isRemoveInRange_none (t : TrackerLine) (lo : Int) :
    t.isRemoveInRange lo none = decide (lo ≤ t.removedAtPosition) := by
  simp [TrackerLine.isRemoveInRange, boundFalsy]

lemma shiftUp_id (t : TrackerLine) (o : Int) : (t.shiftUp o).id = t.id := by
  unfold TrackerLine.shiftUp
  by_cases h1 : t.currentPosition = -1 <;> by_cases h2 : t.originalPosition = -1 <;>
    by_cases h3 : t.removedAtPosition = -1 <;>
      simp_all [TrackerLine.existedInCurrent, TrackerLine.existedInOriginal,
        TrackerLine.wasExplicitlyRemoved]

lemma shiftUp_originalPosition (t : TrackerLine) (o : Int) :
    (t.shiftUp o).originalPosition = t.originalPosition := by
  unfold TrackerLine.shiftUp
  by_cases h1 : t.currentPosition = -1 <;> by_cases h2 : t.originalPosition = -1 <;>
    by_cases h3 : t.removedAtPosition = -1 <;>
      simp_all [TrackerLine.existedInCurrent, TrackerLine.existedInOriginal,
        TrackerLine.wasExplicitlyRemoved]

lemma shiftUp_currentPosition (t : TrackerLine) (o : Int) :
    (t.shiftUp o).currentPosition =
      if t.currentPosition = -1 then t.currentPosition else t.currentPosition + o := by
  unfold TrackerLine.shiftUp
  by_cases h1 : t.currentPosition = -1 <;> by_cases h2 : t.originalPosition = -1 <;>
    by_cases h3 : t.removedAtPosition = -1 <;>
      simp_all [TrackerLine.existedInCurrent, TrackerLine.existedInOriginal,
        TrackerLine.wasExplicitlyRemoved]

lemma shiftUp_removedAtPosition (t : TrackerLine) (o : Int) :
    (t.shiftUp o).removedAtPosition =
      if t.originalPosition ≠ -1 ∧ t.removedAtPosition ≠ -1 then
        t.removedAtPosition + o
      else t.removedAtPosition := by
  unfold TrackerLine.shiftUp
  by_cases h1 : t.currentPosition = -1 <;> by_cases h2 : t.originalPosition = -1 <;>
    by_cases h3 : t.removedAtPosition = -1 <;>
      simp_all [TrackerLine.existedInCurrent, TrackerLine.existedInOriginal,
        TrackerLine.wasExplicitlyRemoved]

lemma shiftDown_id (t : TrackerLine) (o : Int) : (t.shiftDown o).id = t.id := by
  unfold TrackerLine.shiftDown
  by_cases h1 : t.currentPosition = -1 <;> by_cases h2 : t.originalPosition = -1 <;>
    by_cases h3 : t.removedAtPosition = -1 <;>
      simp_all [TrackerLine.existedInCurrent, TrackerLine.existedInOriginal,
        TrackerLine.wasExplicitlyRemoved]

lemma shiftDown_originalPosition (t : TrackerLine) (o : Int) :
    (t.shiftDown o).originalPosition = t.originalPosition := by
  unfold TrackerLine.shiftDown
  by_cases h1 : t.currentPosition = -1 <;> by_cases h2 : t.originalPosition = -1 <;>
    by_cases h3 : t.removedAtPosition = -1 <;>
      simp_all [TrackerLine.existedInCurrent, TrackerLine.existedInOriginal,
        TrackerLine.wasExplicitlyRemoved]

lemma shiftDown_currentPosition (t : TrackerLine) (o : Int) :
    (t.shiftDown o).currentPosition =
      if t.currentPosition = -1 then t.currentPosition else t.currentPosition - o := by
  unfold TrackerLine.shiftDown
  by_cases h1 : t.currentPosition = -1 <;> by_cases h2 : t.originalPosition = -1 <;>
    by_cases h3 : t.removedAtPosition = -1 <;>
      simp_all [TrackerLine.existedInCurrent, TrackerLine.existedInOriginal,
        TrackerLine.wasExplicitlyRemoved]

lemma shiftDown_removedAtPosition (t : TrackerLine) (o : Int) :
    (t.shiftDown o).removedAtPosition =
      if t.originalPosition ≠ -1 ∧ t.removedAtPosition ≠ -1 then
        t.removedAtPosition - o
      else t.removedAtPosition := by
  unfold TrackerLine.shiftDown
  by_cases h1 : t.currentPosition = -1 <;> by_cases h2 : t.originalPosition = -1 <;>
    by_cases h3 : t.removedAtPosition = -1 <;>
      simp_all [TrackerLine.existedInCurrent, TrackerLine.existedInOriginal,
        TrackerLine.wasExplicitlyRemoved]

/-- Mapping a function over a list preserves a pairwise relation when the
function preserves the relation on elements satisfying a listwide property. -/
lemma pairwise_map_mem {α : Type} {R : α → α → Prop} {P : α → Prop} (g : α → α) :
    ∀ (l : List α), (∀ a ∈ l, P a) → l.Pairwise R →
      (∀ a b, P a → P b → R a b → R (g a) (g b)) → (l.map g).Pairwise R := by
  intro l
  induction l with
  | nil => intro _ _ _; simp
  | cons a l ih =>
    intro hP hp hg
    rcases hp with _ | ⟨h1, h2⟩
    refine List.Pairwise.cons ?_ (ih (fun x hx => hP x (List.mem_cons_of_mem _ hx)) h2 hg)
    intro b hb
    obtain ⟨c, hc, rfl⟩ := List.mem_map.1 hb
    exact hg a c (hP a (List.mem_cons_self _ _)) (hP c (List.mem_cons_of_mem _ hc)) (h1 c hc)

lemma mem_insertByRemovedDesc {a t : TrackerLine} :
    ∀ {l : List TrackerLine}, t ∈ insertByRemovedDesc a l ↔ t = a ∨ t ∈ l := by
  intro l
  induction l with
  | nil => simp [insertByRemovedDesc]
  | cons b bs ih =>
    unfold insertByRemovedDesc
    by_cases h : b.removedTimeStamp ≤ a.removedTimeStamp
    · simp [h]
    · simp [h, ih]
      tauto

lemma mem_sortByRemovedDesc {t : TrackerLine} :
    ∀ {l : List TrackerLine}, t ∈ sortByRemovedDesc l ↔ t ∈ l := by
  intro l
  induction l with
  | nil => simp [sortByRemovedDesc]
  | cons a bs ih => simp [sortByRemovedDesc, mem_insertByRemovedDesc, ih]

/-- What a successful `findRemovedAt` guarantees: the tracker belongs to the
collection, no longer exists, existed originally, and records the queried
removal position. -/
lemma findRemovedAt_some {s : FileSnapshot} {line : Int} {r : TrackerLine}
    (h : s.findRemovedAt line = some r) :
    r ∈ s.tracker ∧ r.currentPosition = -1 ∧ r.originalPosition ≠ -1 ∧
      r.removedAtPosition = line := by
  unfold FileSnapshot.findRemovedAt at h
  have hm := List.mem_of_find?_eq_some h
  have hp := List.find?_some h
  rw [mem_sortByRemovedDesc] at hm
  refine ⟨hm, ?_⟩
  unfold TrackerLine.isStateRemovedAt at hp
  simp only [TrackerLine.existedInCurrent, TrackerLine.existedInOriginal,
    Bool.and_eq_true, Bool.not_eq_true'] at hp
  obtain ⟨⟨h1, h2⟩, h3⟩ := hp
  refine ⟨by simpa using h1, by simpa using h2, by simpa using h3⟩

/-- What a successful `findCurrentLine` guarantees: membership and the current
position. -/
lemma findCurrentLine_mem {s : FileSnapshot} {line : Int} {hi : Option Int} {t : TrackerLine}
    (h : s.findCurrentLine line hi = some t) :
    t ∈ s.tracker ∧ t.currentPosition = line := by
  unfold FileSnapshot.findCurrentLine at h
  refine ⟨List.mem_of_find?_eq_some h, ?_⟩
  have hp := List.find?_some h
  simp only [TrackerLine.isCurrentAt, Bool.and_eq_true, beq_iff_eq] at hp
  exact hp.1

/-- Ids with no duplicates identify elements uniquely. -/
lemma NodupIds.eq_of_id {l : List TrackerLine} (h : NodupIds l) {a b : TrackerLine}
    (ha : a ∈ l) (hb : b ∈ l) (hid : a.id = b.id) : a = b := by
  by_contra hne
  have hsym : Symmetric (fun a b : TrackerLine => a.id ≠ b.id) := fun x y hxy => hxy.symm
  exact List.Pairwise.forall hsym h ha hb hne hid

lemma ec_iff (t : TrackerLine) : t.existedInCurrent = true ↔ t.currentPosition ≠ -1 := by
  simp [TrackerLine.existedInCurrent]

lemma pairwise_curne_of_distinct {l : List TrackerLine} (h : DistinctCurrent l) :
    l.Pairwise CurNe :=
  h.imp (fun hab h1 h2 => hab ((ec_iff _).mpr h1) ((ec_iff _).mpr h2))

lemma distinctCurrent_of_pairwise_curne {l : List TrackerLine} (h : l.Pairwise CurNe) :
    DistinctCurrent l :=
  h.imp (fun hab h1 h2 => hab ((ec_iff _).mp h1) ((ec_iff _).mp h2))

lemma ncr_prop {l : List TrackerLine} (h : NoCurrentRemoved l) :
    ∀ t ∈ l, t.currentPosition ≠ -1 → t.removedAtPosition = -1 := by
  intro t ht hcp
  have := h t ht ((ec_iff t).mpr hcp)
  simpa [TrackerLine.wasExplicitlyRemoved] using this

lemma shiftUp_tracker (s : FileSnapshot) (line : Int) :
    (s.shiftUp line none 1).tracker = s.tracker.map (gShiftUp line) := rfl

lemma shiftUpRemoved_tracker (s : FileSnapshot) (line : Int) :
    (s.shiftUpRemoved line none 1).tracker = s.tracker.map (gShiftUpRemoved line) := rfl

lemma gShiftUp_id (line : Int) (t : TrackerLine) : (gShiftUp line t).id = t.id := by
  unfold gShiftUp
  split_ifs with h
  · exact shiftUp_id t 1
  · rfl

lemma gShiftUp_cp (line : Int) (hline : 0 ≤ line) (t : TrackerLine) :
    (gShiftUp line t).currentPosition =
      if line ≤ t.currentPosition then t.currentPosition + 1 else t.currentPosition := by
  unfold gShiftUp
  rw [isCurrentInRange_none]
  by_cases h : line ≤ t.currentPosition
  · have hne : ¬(t.currentPosition = -1) := by omega
    simp [h, shiftUp_currentPosition, hne]
  · simp [h]

lemma gShiftUp_rm_of_none (line : Int) (t : TrackerLine) (h : t.removedAtPosition = -1) :
    (gShiftUp line t).removedAtPosition = -1 := by
  unfold gShiftUp
  split_ifs with hr
  · rw [shiftUp_removedAtPosition]; simp [h]
  · exact h

/-- Stage 1 of `restoreOrAddTracker`: the snapshot-level `shiftUp(line)` keeps
ids and the no-duplicate invariant, keeps "present implies not removed", and
leaves no present tracker at position `line`. -/
lemma stage_shiftUp (l : List TrackerLine) (line : Int) (hline : 0 ≤ line)
    (hncr : ∀ t ∈ l, t.currentPosition ≠ -1 → t.removedAtPosition = -1)
    (hpc : l.Pairwise IdCur) :
    (l.map (gShiftUp line)).Pairwise IdCur ∧
    (∀ t ∈ l.map (gShiftUp line), t.currentPosition ≠ -1 → t.removedAtPosition = -1) ∧
    (∀ t ∈ l.map (gShiftUp line), t.currentPosition ≠ line) := by
  refine ⟨?_, ?_, ?_⟩
  · refine pairwise_map_mem (P := fun _ => True) _ l (fun _ _ => trivial) hpc ?_
    rintro a b - - ⟨hid, hcn⟩
    refine ⟨by rw [gShiftUp_id, gShiftUp_id]; exact hid, ?_⟩
    intro h1 h2
    rw [gShiftUp_cp line hline] at h1 ⊢
    rw [gShiftUp_cp line hline] at h2 ⊢
    split_ifs at h1 h2 ⊢ with ha hb
    all_goals
      have hane : a.currentPosition ≠ -1 := by omega
      have hbne : b.currentPosition ≠ -1 := by omega
      have := hcn hane hbne
      omega
  · intro u hu
    obtain ⟨t, ht, rfl⟩ := List.mem_map.1 hu
    intro hne
    have hcpt : t.currentPosition ≠ -1 := by
      rw [gShiftUp_cp line hline] at hne
      by_cases h : line ≤ t.currentPosition
      · omega
      · rw [if_neg h] at hne; exact hne
    exact gShiftUp_rm_of_none line t (hncr t ht hcpt)
  · intro u hu
    obtain ⟨t, ht, rfl⟩ := List.mem_map.1 hu
    rw [gShiftUp_cp line hline]
    split_ifs with h <;> omega

lemma restore_some_fields (t : TrackerLine) (line : Int) (h : t.originalPosition ≠ -1) :
    t.restore (some line) =
      { t with
        currentPosition := line
        changeAtPosition := line
        removedAtPosition := -1
        removedTimeStamp := -1 } := by
  unfold TrackerLine.restore
  rw [if_neg (by simp [TrackerLine.existedInOriginal, h])]
  rfl

lemma gRestore_id (rid : Nat) (line : Int) (t : TrackerLine) : (gRestore rid line t).id = t.id := by
  unfold gRestore TrackerLine.restore
  split_ifs <;> rfl

/-- Stage 2 of `restoreOrAddTracker`: restoring the found removed tracker (by
id) keeps the no-duplicate invariant — the restored line lands on position
`line`, which stage 1 has vacated — keeps "present implies not removed", and
leaves every tracker with a removal record at or above `line` absent from the
current document. -/
lemma stage_restore (l : List TrackerLine) (line : Int) (rid : Nat) (hline : 0 ≤ line)
    (hpc : l.Pairwise IdCur)
    (hncr : ∀ t ∈ l, t.currentPosition ≠ -1 → t.removedAtPosition = -1)
    (hrfound : ∀ t ∈ l, t.id = rid → t.currentPosition = -1 ∧ t.originalPosition ≠ -1)
    (hneq : ∀ t ∈ l, t.currentPosition ≠ line) :
    (l.map (gRestore rid line)).Pairwise IdCur ∧
    (∀ t ∈ l.map (gRestore rid line), t.currentPosition ≠ -1 → t.removedAtPosition = -1) ∧
    (∀ t ∈ l.map (gRestore rid line), line ≤ t.removedAtPosition → t.currentPosition = -1) := by
  refine ⟨?_, ?_, ?_⟩
  · refine pairwise_map_mem
      (P := fun t => (t.id = rid → t.currentPosition = -1 ∧ t.originalPosition ≠ -1) ∧
        t.currentPosition ≠ line) _ l
      (fun t ht => ⟨hrfound t ht, hneq t ht⟩) hpc ?_
    rintro a b ⟨hPa, hna⟩ ⟨hPb, hnb⟩ ⟨hid, hcn⟩
    refine ⟨by rw [gRestore_id, gRestore_id]; exact hid, ?_⟩
    unfold gRestore
    by_cases ha : a.id = rid <;> by_cases hb : b.id = rid
    · exact absurd (ha.trans hb.symm) hid
    · rw [if_pos (by simp [ha]), if_neg (by simp [hb])]
      rw [restore_some_fields a line (hPa ha).2]
      intro _ _
      exact fun hl => hnb (hl.symm)
    · rw [if_neg (by simp [ha]), if_pos (by simp [hb])]
      rw [restore_some_fields b line (hPb hb).2]
      intro _ _
      exact hna
    · rw [if_neg (by simp [ha]), if_neg (by simp [hb])]
      exact hcn
  · intro u hu
    obtain ⟨t, ht, rfl⟩ := List.mem_map.1 hu
    unfold gRestore
    by_cases hid : t.id = rid
    · rw [if_pos (by simp [hid]), restore_some_fields t line (hrfound t ht hid).2]
      intro _; rfl
    · rw [if_neg (by simp [hid])]
      exact hncr t ht
  · intro u hu
    obtain ⟨t, ht, rfl⟩ := List.mem_map.1 hu
    unfold gRestore
    by_cases hid : t.id = rid
    · rw [if_pos (by simp [hid]), restore_some_fields t line (hrfound t ht hid).2]
      dsimp only
      intro hle
      omega
    · rw [if_neg (by simp [hid])]
      intro hle
      by_contra hcp
      have := hncr t ht hcp
      omega

lemma gShiftUpRemoved_id (line : Int) (t : TrackerLine) :
    (gShiftUpRemoved line t).id = t.id := by
  unfold gShiftUpRemoved
  split_ifs with h
  · exact shiftUp_id t 1
  · rfl

lemma gShiftUpRemoved_cp (line : Int) (t : TrackerLine)
    (h : line ≤ t.removedAtPosition → t.currentPosition = -1) :
    (gShiftUpRemoved line t).currentPosition = t.currentPosition := by
  unfold gShiftUpRemoved
  rw [isRemoveInRange_none]
  split_ifs with hr
  · rw [shiftUp_currentPosition]
    have := h (by exact_mod_cast of_decide_eq_true (by exact_mod_cast hr))
    simp [this]
  · rfl

/-- Stage 3 of `restoreOrAddTracker`: `shiftUpRemoved(line)` moves only removal
records of absent trackers, so ids and all current positions are unchanged. -/
lemma stage_shiftUpRemoved (l : List TrackerLine) (line : Int)
    (hpc : l.Pairwise IdCur)
    (hrm : ∀ t ∈ l, line ≤ t.removedAtPosition → t.currentPosition = -1) :
    (l.map (gShiftUpRemoved line)).Pairwise IdCur ∧
    (∀ t ∈ l, (gShiftUpRemoved line t).currentPosition = t.currentPosition) := by
  constructor
  · refine pairwise_map_mem
      (P := fun t => line ≤ t.removedAtPosition → t.currentPosition = -1) _ l hrm hpc ?_
    rintro a b hPa hPb ⟨hid, hcn⟩
    refine ⟨by rw [gShiftUpRemoved_id, gShiftUpRemoved_id]; exact hid, ?_⟩
    rw [CurNe, gShiftUpRemoved_cp line a hPa, gShiftUpRemoved_cp line b hPb]
    exact hcn
  · intro t ht
    exact gShiftUpRemoved_cp line t (hrm t ht)

lemma mk_currentPosition_only (line : Int) (fid : Nat) (now : Int) :
    (mkTrackerLine { currentPosition := some line } fid now).currentPosition = line := rfl

lemma restoreOrAddTracker_tracker_none (s : FileSnapshot) (line : Int) (freshId : Nat)
    (now : Int) (h : s.findRemovedAt line = none) :
    (s.restoreOrAddTracker (Sum.inl line) true freshId now).tracker =
      (s.tracker.map (gShiftUp line)).map (gShiftUpRemoved line) ++
        [mkTrackerLine { currentPosition := some line } freshId now] := by
  unfold FileSnapshot.restoreOrAddTracker
  dsimp only
  rw [h]
  rfl

lemma restoreOrAddTracker_tracker_some (s : FileSnapshot) (line : Int) (r : TrackerLine)
    (freshId : Nat) (now : Int) (h : s.findRemovedAt line = some r) :
    (s.restoreOrAddTracker (Sum.inl line) true freshId now).tracker =
      ((s.tracker.map (gShiftUp line)).map (gRestore r.id line)).map (gShiftUpRemoved line) := by
  unfold FileSnapshot.restoreOrAddTracker
  dsimp only
  rw [h]
  rfl

/-- C3 (confirmed): `restoreOrAddTracker` with `shift = true` at a line index,
on a collection with unique ids where no tracker is simultaneously present and
removed and present trackers occupy distinct current positions, never leaves
two trackers claiming the same current position. -/
theorem c3_restoreOrAddTracker_no_duplicates (s : FileSnapshot) (line : Int) (freshId : Nat)
    (now : Int) (hline : 0 ≤ line) (hids : NodupIds s.tracker)
    (hncr : NoCurrentRemoved s.tracker) (hdc : DistinctCurrent s.tracker) :
    DistinctCurrent (s.restoreOrAddTracker (Sum.inl line) true freshId now).tracker := by
  have hids' : s.tracker.Pairwise (fun a b => a.id ≠ b.id) := hids
  have hpc : s.tracker.Pairwise IdCur :=
    (List.Pairwise.and hids' (pairwise_curne_of_distinct hdc)).imp (fun hab => hab)
  have hncr' := ncr_prop hncr
  obtain ⟨st1p, st1n, st1q⟩ := stage_shiftUp s.tracker line hline hncr' hpc
  cases hrem : s.findRemovedAt line with
  | none =>
    rw [restoreOrAddTracker_tracker_none s line freshId now hrem]
    have hrm : ∀ t ∈ s.tracker.map (gShiftUp line),
        line ≤ t.removedAtPosition → t.currentPosition = -1 := by
      intro t ht hle
      by_contra hcp
      have := st1n t ht hcp
      omega
    obtain ⟨st3p, st3cp⟩ := stage_shiftUpRemoved _ line st1p hrm
    apply distinctCurrent_of_pairwise_curne
    rw [List.pairwise_append]
    refine ⟨st3p.imp (fun hab => hab.2), by simp, ?_⟩
    intro a ha b hb
    simp only [List.mem_singleton] at hb
    subst hb
    obtain ⟨t, ht, rfl⟩ := List.mem_map.1 ha
    intro _ _
    rw [st3cp t ht, mk_currentPosition_only]
    exact st1q t ht
  | some r =>
    obtain ⟨hrmem, hrcp, hror, _⟩ := findRemovedAt_some hrem
    rw [restoreOrAddTracker_tracker_some s line r freshId now hrem]
    have hrfound : ∀ t ∈ s.tracker.map (gShiftUp line),
        t.id = r.id → t.currentPosition = -1 ∧ t.originalPosition ≠ -1 := by
      intro t ht hid
      obtain ⟨u, hu, rfl⟩ := List.mem_map.1 ht
      rw [gShiftUp_id] at hid
      have heq : u = r := NodupIds.eq_of_id hids hu hrmem hid
      subst heq
      have hgr : gShiftUp line u = u := by
        unfold gShiftUp
        rw [if_neg]
        rw [isCurrentInRange_none, hrcp]
        simp
        omega
      rw [hgr]
      exact ⟨hrcp, hror⟩
    obtain ⟨st2p, _, st2q⟩ := stage_restore _ line r.id hline st1p st1n hrfound st1q
    obtain ⟨st3p, _⟩ := stage_shiftUpRemoved _ line st2p st2q
    exact distinctCurrent_of_pairwise_curne (st3p.imp (fun hab => hab.2))

/-- Witness for `c3_restoreOrAddTracker_no_duplicates`: restoring the removed
line of `snapC3w` at its slot preserves distinct current positions. -/
theorem c3_restoreOrAddTracker_no_duplicates_witness :
    DistinctCurrent ((snapC3w.restoreOrAddTracker (Sum.inl 1) true 77 9).tracker) :=
  c3_restoreOrAddTracker_no_duplicates snapC3w 1 77 9 (by decide) (by decide) (by decide)
    (by decide)

lemma gShiftDown_id (line : Int) (t : TrackerLine) : (gShiftDown line t).id = t.id := by
  unfold gShiftDown
  split_ifs with h
  · exact shiftDown_id t 1
  · rfl

lemma gShiftDownRemoved_id (line : Int) (t : TrackerLine) :
    (gShiftDownRemoved line t).id = t.id := by
  unfold gShiftDownRemoved
  split_ifs with h
  · exact shiftDown_id t 1
  · rfl

lemma gRemove_id (rid : Nat) (now : Int) (t : TrackerLine) : (gRemove rid now t).id = t.id := by
  unfold gRemove TrackerLine.remove
  split_ifs <;> rfl

lemma remove_none_fields (t : TrackerLine) (now : Int) (h : t.removedAtPosition = -1) :
    t.remove none now =
      { t with
        removedAtPosition := t.currentPosition
        currentPosition := -1
        removedTimeStamp := now } := by
  unfold TrackerLine.remove
  rw [if_neg (by simp [TrackerLine.wasExplicitlyRemoved, h])]
  rfl

lemma gShiftDown_fix (line : Int) (t : TrackerLine) (h : ¬line ≤ t.currentPosition) :
    gShiftDown line t = t := by
  unfold gShiftDown
  rw [if_neg]
  simp [isCurrentInRange_none]
  omega

lemma gShiftDownRemoved_fix (line : Int) (t : TrackerLine) (h : ¬line ≤ t.removedAtPosition) :
    gShiftDownRemoved line t = t := by
  unfold gShiftDownRemoved
  rw [if_neg]
  simp [isRemoveInRange_none]
  omega

lemma eraseP_isEq_not_mem {t : TrackerLine} :
    ∀ {l : List TrackerLine}, l.Pairwise (fun a b => a.id ≠ b.id) →
      ∀ u ∈ l.eraseP (fun x => x.isEq t), u.id ≠ t.id := by
  intro l
  induction l with
  | nil => intro _ u hu; simp [List.eraseP] at hu
  | cons a tl ih =>
    intro hp u hu
    rcases hp with _ | ⟨h1, h2⟩
    rw [List.eraseP_cons] at hu
    by_cases hpa : a.id = t.id
    · rw [show (a.isEq t) = true by simp [TrackerLine.isEq, hpa]] at hu
      simp only [cond_true] at hu
      have := h1 u hu
      omega
    · rw [show (a.isEq t) = false by simp [TrackerLine.isEq]; omega] at hu
      simp only [cond_false, List.mem_cons] at hu
      rcases hu with rfl | hu
      · exact hpa
      · exact ih h2 u hu

lemma add_line (cl : ChangeLine) (ty : ChangeType) : (cl.add ty).line = cl.line := by
  unfold ChangeLine.add
  split_ifs <;> rfl

/-- Every entry produced by folding `updateChangesStep` keys a `ChangeLine`
whose stored line equals the key, and every key satisfies any property `P`
enjoyed by the change positions of the non-ghost trackers (and by the keys of
the initial store). -/
lemma foldl_updateChanges_inv (P : Int → Prop) :
    ∀ (l : List TrackerLine) (init : List (Int × ChangeLine)),
      (∀ e ∈ init, e.2.line = e.1 ∧ P e.1) →
      (∀ t ∈ l, t.isStateGhost = false → P t.changePos) →
      ∀ e ∈ l.foldl updateChangesStep init, e.2.line = e.1 ∧ P e.1 := by
  intro l
  induction l with
  | nil => intro init hinit _ e he; exact hinit e he
  | cons a l ih =>
    intro init hinit hl e he
    refine ih (updateChangesStep init a)
      ?_ (fun t ht => hl t (List.mem_cons_of_mem _ ht)) e he
    intro e' he'
    unfold updateChangesStep at he'
    by_cases hg : a.isStateGhost = true
    · rw [if_pos hg] at he'
      exact hinit e' he'
    · rw [if_neg hg] at he'
      have hg' : a.isStateGhost = false := by
        cases h : a.isStateGhost
        · rfl
        · exact absurd h hg
      by_cases hf : ((init.find? (fun e => e.1 == a.changePos)).isSome : Prop)
      · rw [if_pos hf] at he'
        obtain ⟨e0, he0, rfl⟩ := List.mem_map.1 he'
        by_cases hk : e0.1 = a.changePos
        · rw [if_pos (by simp [hk])]
          obtain ⟨hline0, hP0⟩ := hinit e0 he0
          cases htag : a.primaryTag with
          | none => exact ⟨hline0, hP0⟩
          | some ty => exact ⟨by simpa [add_line] using hline0, hP0⟩
        · rw [if_neg (by simp [hk])]
          exact hinit e0 he0
      · rw [if_neg hf] at he'
        rcases List.mem_append.1 he' with hin | hnew
        · exact hinit e' hin
        · simp only [List.mem_singleton] at hnew
          subst hnew
          refine ⟨?_, hl a (List.mem_cons_self _ _) hg'⟩
          cases htag : a.primaryTag with
          | none => rfl
          | some ty => simp [add_line]

lemma map_ids (g : TrackerLine → TrackerLine) (hg : ∀ x, (g x).id = x.id) :
    ∀ l : List TrackerLine, (l.map g).map TrackerLine.id = l.map TrackerLine.id := by
  intro l
  induction l with
  | nil => rfl
  | cons a tl ih => simp [hg, ih]

lemma removeTrackerOrLine_tracker_found (s : FileSnapshot) (line : Int) (t : TrackerLine)
    (now : Int) (h : s.findCurrentLine line none = some t) :
    (s.removeTrackerOrLine (Sum.inl line) true now).tracker =
      (if t.existedInOriginal = true then
        ((s.tracker.map (gShiftDown (line + 1))).map (gShiftDownRemoved (line + 1))).map
          (gRemove t.id now)
      else
        ((s.tracker.map (gShiftDown (line + 1))).map (gShiftDownRemoved (line + 1))).eraseP
          (fun u => u.isEq t)) := by
  unfold FileSnapshot.removeTrackerOrLine
  dsimp only
  rw [h]
  dsimp only
  rw [apply_ite FileSnapshot.tracker]
  rfl

/-- C6 (confirmed): when `removeTrackerOrLine` (with shift) finds a tracker at
the queried line, then: if the tracker existed in the original document it is
retained — the id multiset of the collection is unchanged and the tracker with
that id is now classified removed; if it never existed originally, no tracker
with its id remains in the collection, and every entry of the change map
rebuilt by `updateChanges` is keyed by the change position of one of the
remaining trackers. -/
theorem c6_removeTrackerOrLine (s : FileSnapshot) (line : Int) (t : TrackerLine) (now : Int)
    (hfind : s.findCurrentLine line none = some t)
    (hline : 0 ≤ line)
    (hids : NodupIds s.tracker)
    (hncr : NoCurrentRemoved s.tracker) :
    (t.existedInOriginal = true →
      (s.removeTrackerOrLine (Sum.inl line) true now).tracker.map TrackerLine.id =
        s.tracker.map TrackerLine.id ∧
      ∃ u ∈ (s.removeTrackerOrLine (Sum.inl line) true now).tracker,
        u.id = t.id ∧ u.isStateRemoved = true) ∧
    (t.existedInOriginal = false →
      (∀ u ∈ (s.removeTrackerOrLine (Sum.inl line) true now).tracker, u.id ≠ t.id) ∧
      ∀ e ∈ ((s.removeTrackerOrLine (Sum.inl line) true now).updateChanges).changes,
        ∃ u ∈ (s.removeTrackerOrLine (Sum.inl line) true now).tracker,
          u.isStateGhost = false ∧ u.changePos = e.1) := by
  obtain ⟨hmem, hcp⟩ := findCurrentLine_mem hfind
  have hcpne : t.currentPosition ≠ -1 := by omega
  have hrm : t.removedAtPosition = -1 := ncr_prop hncr t hmem hcpne
  have hfixD : gShiftDown (line + 1) t = t := gShiftDown_fix _ _ (by omega)
  have hfixDR : gShiftDownRemoved (line + 1) t = t := gShiftDownRemoved_fix _ _ (by omega)
  constructor
  · intro heo
    constructor
    · rw [removeTrackerOrLine_tracker_found s line t now hfind, if_pos heo]
      rw [map_ids (gRemove t.id now) (gRemove_id t.id now),
        map_ids (gShiftDownRemoved (line + 1)) (gShiftDownRemoved_id (line + 1)),
        map_ids (gShiftDown (line + 1)) (gShiftDown_id (line + 1))]
    · rw [removeTrackerOrLine_tracker_found s line t now hfind, if_pos heo]
      refine ⟨gRemove t.id now t, ?_, gRemove_id t.id now t, ?_⟩
      · have h1 : t ∈ s.tracker.map (gShiftDown (line + 1)) := by
          rw [← hfixD]; exact List.mem_map_of_mem _ hmem
        have h2 : t ∈ (s.tracker.map (gShiftDown (line + 1))).map
            (gShiftDownRemoved (line + 1)) := by
          rw [← hfixDR]; exact List.mem_map_of_mem _ h1
        exact List.mem_map_of_mem _ h2
      · have hg : gRemove t.id now t = t.remove none now := by
          unfold gRemove; rw [if_pos (by simp)]
        rw [hg, remove_none_fields t now hrm]
        have heo' : t.originalPosition ≠ -1 := by
          simpa [TrackerLine.existedInOriginal] using heo
        unfold TrackerLine.isStateRemoved
        simp [TrackerLine.existedInCurrent, TrackerLine.existedInOriginal,
          TrackerLine.wasExplicitlyRemoved, heo', hcpne]
  · intro heo
    constructor
    · rw [removeTrackerOrLine_tracker_found s line t now hfind, if_neg (by simp [heo])]
      have hids1 : (s.tracker.map (gShiftDown (line + 1))).Pairwise
          (fun a b => a.id ≠ b.id) := by
        refine pairwise_map_mem (P := fun _ => True) _ _ (fun _ _ => trivial) hids ?_
        rintro a b - - hab
        rw [gShiftDown_id, gShiftDown_id]
        exact hab
      have hids2 : ((s.tracker.map (gShiftDown (line + 1))).map
          (gShiftDownRemoved (line + 1))).Pairwise (fun a b => a.id ≠ b.id) := by
        refine pairwise_map_mem (P := fun _ => True) _ _ (fun _ _ => trivial) hids1 ?_
        rintro a b - - hab
        rw [gShiftDownRemoved_id, gShiftDownRemoved_id]
        exact hab
      exact eraseP_isEq_not_mem hids2
    · intro e he
      have hch : ((s.removeTrackerOrLine (Sum.inl line) true now).updateChanges).changes =
          (s.removeTrackerOrLine (Sum.inl line) true now).tracker.foldl updateChangesStep [] :=
        rfl
      rw [hch] at he
      exact (foldl_updateChanges_inv
        (fun k => ∃ u ∈ (s.removeTrackerOrLine (Sum.inl line) true now).tracker,
          u.isStateGhost = false ∧ u.changePos = k)
        _ [] (by simp) (fun u hu hg => ⟨u, hu, hg, rfl⟩) e he).2

/-- Witness for `c6_removeTrackerOrLine`: removing the original line `"b"` of
`snapC6w` retains it as a removed record. -/
theorem c6_removeTrackerOrLine_witness :
    (snapC6w.removeTrackerOrLine (Sum.inl 1) true 50).tracker.map TrackerLine.id =
      snapC6w.tracker.map TrackerLine.id ∧
    ∃ u ∈ (snapC6w.removeTrackerOrLine (Sum.inl 1) true 50).tracker,
      u.id = trackerC6w.id ∧ u.isStateRemoved = true :=
  (c6_removeTrackerOrLine snapC6w 1 trackerC6w 50 (by decide) (by decide) (by decide)
    (by decide)).1 (by decide)

/-- C4 counterexample: after the reachable edit sequence delete-last-line,
insert-first-line, edit-a-line, the snapshot has three original lines, three
current lines, and four tagged change-map entries — the claimed bound
`max(len(original), len(current))` is exceeded. -/
theorem c4_counterexample :
    snapC4c.getChangesLinesCount = 4 ∧
    snapC4c.lines.length = 3 ∧
    snapC4c.state.length = 3 ∧
    max snapC4c.lines.length snapC4c.state.length < snapC4c.getChangesLinesCount := by decide

/-- C4 (amended): assuming every non-ghost tracker keys its change-map entry
inside `[0, len(current)]` (current positions are in-document and removal
records ride at most one past the end), the count of changed/added/removed
entries is at most `max(len(original), len(current)) + 1`; the extra `+1` slot
(a removal record parked at `len(current)`) is attainable, as the
counterexample shows. -/
theorem c4_changes_count_bound (s : FileSnapshot)
    (hpos : ∀ t ∈ s.tracker, t.isStateGhost = false →
      0 ≤ t.changePos ∧ t.changePos ≤ (s.state.length : Int)) :
    (s.updateChanges).getChangesLinesCount ≤ max s.lines.length s.state.length + 1 := by
  have hch : (s.updateChanges).changes = s.tracker.foldl updateChangesStep [] := rfl
  have hinv := foldl_updateChanges_inv
    (fun k => 0 ≤ k ∧ k ≤ (s.state.length : Int)) s.tracker [] (by simp) hpos
  unfold FileSnapshot.getChangesLinesCount
  rw [hch]
  set lst := (((s.tracker.foldl updateChangesStep []).filter
      (fun e => e.2.hasAny [ChangeType.changed, ChangeType.added, ChangeType.removed])).map
      (fun e => e.2.getLine)).dedup with hlst
  have hnd : lst.Nodup := List.nodup_dedup _
  have hsub : lst.toFinset ⊆ Finset.Icc (0 : Int) (s.state.length : Int) := by
    intro x hx
    rw [List.mem_toFinset, hlst, List.mem_dedup] at hx
    obtain ⟨e, he, rfl⟩ := List.mem_map.1 hx
    have he' := List.mem_filter.1 he
    have hek := hinv e he'.1
    rw [Finset.mem_Icc]
    have hline : e.2.getLine = e.1 := hek.1
    rw [hline]
    exact hek.2
  calc lst.length = lst.toFinset.card := (List.toFinset_card_of_nodup hnd).symm
    _ ≤ (Finset.Icc (0 : Int) (s.state.length : Int)).card := Finset.card_le_card hsub
    _ = (((s.state.length : Int) + 1 - 0)).toNat := Int.card_Icc _ _
    _ ≤ max s.lines.length s.state.length + 1 := by
        have := Nat.le_max_right s.lines.length s.state.length
        omega

/-- Witness for `c4_changes_count_bound` at a fresh two-line snapshot. -/
theorem c4_changes_count_bound_witness :
    (snapC4w.updateChanges).getChangesLinesCount ≤
      max snapC4w.lines.length snapC4w.state.length + 1 :=
  c4_changes_count_bound snapC4w (by decide)
